import Mathlib

/-!
Shallow embedding of the OpenGL-Book getting-started programs
(`hello_window_clear.cpp`, `hello_triangle.cpp`, `hello_rectangle.cpp`,
`shaders_uniform.cpp`).

Each program's `main` is a straight-line sequence of windowing / graphics
API calls followed by a render loop.  We embed each `main` as a pure
function from an environment (the outcomes of the fallible external calls
and the per-iteration key state) to an exit code together with the trace
of API calls issued, in source order.  Float literals from the sources
(`0.5f`, `0.2f`, ...) are all decimal with one fractional digit, so they
are modelled exactly as fixed-point integers in tenths (`0.5f` ↦ `5`,
`-0.5f` ↦ `-5`, `1.0f` ↦ `10`); the time-driven green channel of
`shaders_uniform.cpp` is modelled over the reals.
-/

/-- A pipeline stage: the sources create a `GL_VERTEX_SHADER` and a
`GL_FRAGMENT_SHADER`. -/
inductive Stage
  | vertex
  | fragment
deriving DecidableEq, Repr

/-- One API call issued by a program, in the order the source issues them.
Payloads record only what the claims depend on: the success flag observed
at a fallible call, the diagnostic text printed, element counts of buffer
uploads, and draw-call parameters. -/
inductive Event
  | glfwInit
  | windowHint
  | createWindow (ok : Bool)
  | printError (msg : String)
  | glfwTerminate
  | makeContextCurrent
  | setFramebufferSizeCallback
  | gladLoad (ok : Bool)
  | createShader (stage : Stage)
  | shaderSource (stage : Stage)
  | compileShader (stage : Stage)
  | compileDiag (stage : Stage) (log : String)
  | createProgram
  | attachShader (stage : Stage)
  | linkProgram
  | linkDiag (log : String)
  | deleteShader (stage : Stage)
  | genVertexArrays
  | genBuffers
  | bindVertexArray
  | bindArrayBuffer
  | bufferDataArray (floats : Nat)
  | bindElementBuffer
  | bufferDataElement (elems : Nat)
  | vertexAttribPointer (size : Nat)
  | enableVertexAttribArray
  | unbindArrayBuffer
  | unbindVertexArray
  | processInputCall
  | clearColor (r g b a : Int)
  | clear
  | useProgram
  | getTime
  | getUniformLocation
  | uniform4f
  | drawArrays (first count : Nat)
  | drawElements (count : Nat)
  | swapBuffers
  | pollEvents
  | deleteVertexArrays
  | deleteBuffers
  | deleteProgram
deriving DecidableEq, Repr

/-- Outcomes of the external (GLFW / GLAD / GL) calls a run can observe:
whether window creation, GLAD loading, the two compilations and the link
succeed, the diagnostic logs the driver would hand back on failure, and,
for each render-loop iteration `i`, whether `glfwGetKey(window,
GLFW_KEY_ESCAPE) == GLFW_PRESS` (`escPressed i`) and whether
`glfwPollEvents` delivers a window-manager close request
(`externalClose i`). -/
structure Env where
  windowOk : Bool
  gladOk : Bool
  vertexCompileOk : Bool
  fragmentCompileOk : Bool
  linkOk : Bool
  vertexLog : String
  fragmentLog : String
  linkLog : String
  escPressed : Nat → Bool
  externalClose : Nat → Bool

/-- `processInput` (identical in all four sources):
`if (glfwGetKey(window, GLFW_KEY_ESCAPE) == GLFW_PRESS)
   glfwSetWindowShouldClose(window, true);`
as a function of the observed key state and the current should-close flag. -/
def processInput (escPressed shouldClose : Bool) : Bool :=
  if escPressed then true else shouldClose

/-- One `Bool` per input-processing step, folded through `processInput`:
the should-close flag after a sequence of steps. -/
def runInputs : List Bool → Bool → Bool
  | [], shouldClose => shouldClose
  | e :: es, shouldClose => runInputs es (processInput e shouldClose)

/-- `while (!glfwWindowShouldClose(window)) { body }` with fuel.  Every
iteration emits the body's call trace; `processInput` at the top of the
body may set the flag from the key state of iteration `i`, and
`glfwPollEvents` at the bottom may set it from a window-manager close
request.  The flag is re-checked only at the loop boundary, as in the
source. -/
def renderLoop (body : List Event) (env : Env) : Nat → Nat → Bool → List Event
  | 0, _, _ => []
  | fuel + 1, i, shouldClose =>
    if shouldClose then []
    else
      body ++ renderLoop body env fuel (i + 1)
        (processInput (env.escPressed i) shouldClose || env.externalClose i)

/-- `glfwInit` and the three `glfwWindowHint` calls, then
`glfwCreateWindow` (identical preamble in all four sources). -/
def contextSetup (env : Env) : List Event :=
  [Event.glfwInit, Event.windowHint, Event.windowHint, Event.windowHint,
   Event.createWindow env.windowOk]

/-- The shader build-and-link section shared verbatim by
`hello_triangle.cpp`, `hello_rectangle.cpp` and `shaders_uniform.cpp`:
create/source/compile each stage, print the stage's info log once if its
compile-status query fails, create the program, attach both shaders,
link, print the link log once if the link-status query fails, then delete
both shader objects unconditionally. -/
def buildShaderProgram (env : Env) : List Event :=
  [Event.createShader Stage.vertex, Event.shaderSource Stage.vertex,
   Event.compileShader Stage.vertex]
  ++ (if env.vertexCompileOk then []
      else [Event.compileDiag Stage.vertex env.vertexLog])
  ++ [Event.createShader Stage.fragment, Event.shaderSource Stage.fragment,
      Event.compileShader Stage.fragment]
  ++ (if env.fragmentCompileOk then []
      else [Event.compileDiag Stage.fragment env.fragmentLog])
  ++ [Event.createProgram, Event.attachShader Stage.vertex,
      Event.attachShader Stage.fragment, Event.linkProgram]
  ++ (if env.linkOk then [] else [Event.linkDiag env.linkLog])
  ++ [Event.deleteShader Stage.vertex, Event.deleteShader Stage.fragment]

namespace HelloWindowClear

/-- Render-loop body of `hello_window_clear.cpp`: input, set clear color
`(0.2f, 0.3f, 0.3f, 1.0f)` (in tenths: `2 3 3 10`), clear, swap, poll. -/
def loopBody : List Event :=
  [Event.processInputCall,
   Event.clearColor 2 3 3 10,
   Event.clear,
   Event.swapBuffers,
   Event.pollEvents]

/-- `main` of `hello_window_clear.cpp`: context setup; on a null window
print a diagnostic, `glfwTerminate`, return `-1`; on GLAD-load failure
print a diagnostic and return `-1` (no terminate); else run the loop and
`glfwTerminate`, returning `0`. -/
def main (env : Env) (fuel : Nat) : Int × List Event :=
  if env.windowOk = false then
    (-1, contextSetup env
      ++ [Event.printError "Failed to create GLFW window", Event.glfwTerminate])
  else if env.gladOk = false then
    (-1, contextSetup env
      ++ [Event.makeContextCurrent, Event.setFramebufferSizeCallback,
          Event.gladLoad env.gladOk,
          Event.printError "Failed to initialize GLAD"])
  else
    (0, contextSetup env
      ++ [Event.makeContextCurrent, Event.setFramebufferSizeCallback,
          Event.gladLoad env.gladOk]
      ++ renderLoop loopBody env fuel 0 false
      ++ [Event.glfwTerminate])

end HelloWindowClear

namespace HelloTriangle

/-- The vertex array of `hello_triangle.cpp` (three vertices, three float
components each), in tenths: left, right, top. -/
def vertices : List (Int × Int × Int) :=
  [(-5, -5, 0), (5, -5, 0), (0, 5, 0)]

/-- Buffer/attribute setup of `hello_triangle.cpp`: gen VAO, gen VBO,
bind VAO, bind VBO, upload 9 floats, declare attribute 0 as 3 floats,
enable it, unbind VBO, unbind VAO. -/
def setup : List Event :=
  [Event.genVertexArrays, Event.genBuffers, Event.bindVertexArray,
   Event.bindArrayBuffer, Event.bufferDataArray 9,
   Event.vertexAttribPointer 3, Event.enableVertexAttribArray,
   Event.unbindArrayBuffer, Event.unbindVertexArray]

/-- Render-loop body of `hello_triangle.cpp`: input, set clear color,
clear, use program, bind VAO, `glDrawArrays(GL_TRIANGLES, 0, 3)`, swap,
poll. -/
def loopBody : List Event :=
  [Event.processInputCall,
   Event.clearColor 2 3 3 10,
   Event.clear,
   Event.useProgram,
   Event.bindVertexArray,
   Event.drawArrays 0 3,
   Event.swapBuffers,
   Event.pollEvents]

/-- Everything `main` of `hello_triangle.cpp` issues after a successful
GLAD load and before the render loop: the shader build/link section and
the geometry setup. -/
def preRender (env : Env) : List Event :=
  [Event.makeContextCurrent, Event.setFramebufferSizeCallback,
   Event.gladLoad env.gladOk]
  ++ buildShaderProgram env ++ setup

/-- Shutdown section of `hello_triangle.cpp` after the loop: delete VAO,
delete VBO, delete the program, `glfwTerminate`. -/
def shutdown : List Event :=
  [Event.deleteVertexArrays, Event.deleteBuffers, Event.deleteProgram,
   Event.glfwTerminate]

/-- `main` of `hello_triangle.cpp`. -/
def main (env : Env) (fuel : Nat) : Int × List Event :=
  if env.windowOk = false then
    (-1, contextSetup env
      ++ [Event.printError "Failed to create GLFW window", Event.glfwTerminate])
  else if env.gladOk = false then
    (-1, contextSetup env
      ++ [Event.makeContextCurrent, Event.setFramebufferSizeCallback,
          Event.gladLoad env.gladOk,
          Event.printError "Failed to initialize GLAD"])
  else
    (0, contextSetup env ++ preRender env
      ++ renderLoop loopBody env fuel 0 false
      ++ shutdown)

end HelloTriangle

namespace HelloRectangle

/-- The four unique quad vertices of `hello_rectangle.cpp`, in tenths:
top right, bottom right, bottom left, top left. -/
def vertices : List (Int × Int × Int) :=
  [(5, 5, 0), (5, -5, 0), (-5, -5, 0), (-5, 5, 0)]

/-- The index array of `hello_rectangle.cpp`:
`{0, 1, 3,  1, 2, 3}` — first triangle, second triangle. -/
def indices : List Nat := [0, 1, 3, 1, 2, 3]

/-- Buffer/attribute setup of `hello_rectangle.cpp`: gen VAO, gen VBO,
gen EBO, bind VAO, bind VBO, upload 12 floats, bind EBO, upload the 6
indices, declare attribute 0, enable it, unbind VBO (the EBO stays
bound), unbind VAO. -/
def setup : List Event :=
  [Event.genVertexArrays, Event.genBuffers, Event.genBuffers,
   Event.bindVertexArray,
   Event.bindArrayBuffer, Event.bufferDataArray 12,
   Event.bindElementBuffer, Event.bufferDataElement indices.length,
   Event.vertexAttribPointer 3, Event.enableVertexAttribArray,
   Event.unbindArrayBuffer, Event.unbindVertexArray]

/-- Render-loop body of `hello_rectangle.cpp`: input, set clear color,
clear, use program, bind VAO,
`glDrawElements(GL_TRIANGLES, 6, GL_UNSIGNED_INT, 0)`, swap, poll. -/
def loopBody : List Event :=
  [Event.processInputCall,
   Event.clearColor 2 3 3 10,
   Event.clear,
   Event.useProgram,
   Event.bindVertexArray,
   Event.drawElements 6,
   Event.swapBuffers,
   Event.pollEvents]

/-- Shutdown section of `hello_rectangle.cpp`: delete VAO, delete VBO,
delete EBO, delete the program, `glfwTerminate`. -/
def shutdown : List Event :=
  [Event.deleteVertexArrays, Event.deleteBuffers, Event.deleteBuffers,
   Event.deleteProgram, Event.glfwTerminate]

/-- `main` of `hello_rectangle.cpp`. -/
def main (env : Env) (fuel : Nat) : Int × List Event :=
  if env.windowOk = false then
    (-1, contextSetup env
      ++ [Event.printError "Failed to create GLFW window", Event.glfwTerminate])
  else if env.gladOk = false then
    (-1, contextSetup env
      ++ [Event.makeContextCurrent, Event.setFramebufferSizeCallback,
          Event.gladLoad env.gladOk,
          Event.printError "Failed to initialize GLAD"])
  else
    (0, contextSetup env
      ++ [Event.makeContextCurrent, Event.setFramebufferSizeCallback,
          Event.gladLoad env.gladOk]
      ++ buildShaderProgram env ++ setup
      ++ renderLoop loopBody env fuel 0 false
      ++ shutdown)

end HelloRectangle

namespace ShadersUniform

/-- The vertex array of `shaders_uniform.cpp`, in tenths:
bottom right, bottom left, top. -/
def vertices : List (Int × Int × Int) :=
  [(5, -5, 0), (-5, -5, 0), (0, 5, 0)]

/-- Buffer/attribute setup of `shaders_uniform.cpp`: gen VAO, gen VBO,
bind VAO, bind VBO, upload 9 floats, declare attribute 0, enable it, and
bind the VAO once more just before the loop (the unbind calls of the
other files are commented out here). -/
def setup : List Event :=
  [Event.genVertexArrays, Event.genBuffers, Event.bindVertexArray,
   Event.bindArrayBuffer, Event.bufferDataArray 9,
   Event.vertexAttribPointer 3, Event.enableVertexAttribArray,
   Event.bindVertexArray]

/-- Render-loop body of `shaders_uniform.cpp`: input, set clear color,
clear, use program, `glfwGetTime`, compute the green value, look up the
`ourColor` uniform location, `glUniform4f`, then
`glDrawArrays(GL_TRIANGLES, 0, 3)`, swap, poll.  No vertex-array bind
occurs inside the loop. -/
def loopBody : List Event :=
  [Event.processInputCall,
   Event.clearColor 2 3 3 10,
   Event.clear,
   Event.useProgram,
   Event.getTime,
   Event.getUniformLocation,
   Event.uniform4f,
   Event.drawArrays 0 3,
   Event.swapBuffers,
   Event.pollEvents]

/-- Shutdown section of `shaders_uniform.cpp`. -/
def shutdown : List Event :=
  [Event.deleteVertexArrays, Event.deleteBuffers, Event.deleteProgram,
   Event.glfwTerminate]

/-- `main` of `shaders_uniform.cpp`. -/
def main (env : Env) (fuel : Nat) : Int × List Event :=
  if env.windowOk = false then
    (-1, contextSetup env
      ++ [Event.printError "Failed to create GLFW window", Event.glfwTerminate])
  else if env.gladOk = false then
    (-1, contextSetup env
      ++ [Event.makeContextCurrent, Event.setFramebufferSizeCallback,
          Event.gladLoad env.gladOk,
          Event.printError "Failed to initialize GLAD"])
  else
    (0, contextSetup env
      ++ [Event.makeContextCurrent, Event.setFramebufferSizeCallback,
          Event.gladLoad env.gladOk]
      ++ buildShaderProgram env ++ setup
      ++ renderLoop loopBody env fuel 0 false
      ++ shutdown)

/-- The per-frame green channel of `shaders_uniform.cpp`:
`float greenValue = static_cast<float>(sin(timeValue) / 2.0 + 0.5);`
modelled over the reals. -/
noncomputable def greenValue (t : ℝ) : ℝ := Real.sin t / 2 + 1 / 2

end ShadersUniform

/-- Is an event a draw call (array-based or indexed)? -/
def isDrawCall : Event → Bool
  | Event.drawArrays _ _ => true
  | Event.drawElements _ => true
  | _ => false

/-- An environment where every external call succeeds and escape is never
pressed. -/
def envAllOk : Env :=
  { windowOk := true, gladOk := true, vertexCompileOk := true,
    fragmentCompileOk := true, linkOk := true,
    vertexLog := "", fragmentLog := "", linkLog := "",
    escPressed := fun _ => false, externalClose := fun _ => false }

/-- All-success environment in which escape is reported pressed at every
input-processing step. -/
def envEscAlways : Env := { envAllOk with escPressed := fun _ => true }

/-- Environment where only the GLAD loader fails. -/
def envGladFail : Env := { envAllOk with gladOk := false }

/-- Environment where only window creation fails. -/
def envWindowFail : Env := { envAllOk with windowOk := false }

/-- Environment where both shader compilations and the program link fail,
with nonempty driver logs. -/
def envBuildFail : Env :=
  { envAllOk with
    vertexCompileOk := false
    fragmentCompileOk := false
    linkOk := false
    vertexLog := "vlog"
    fragmentLog := "flog"
    linkLog := "llog" }

/-- A closed loop performs no further iteration: once the should-close
flag is true at the boundary check, the loop emits no events. -/
theorem renderLoop_closed (body : List Event) (env : Env) (fuel i : Nat) :
    renderLoop body env fuel i true = [] := by
  cases fuel <;> simp [renderLoop]

/-- An event that does not occur in the loop body never occurs in the
loop's trace. -/
theorem renderLoop_count_of_not_mem (body : List Event) (env : Env) (e : Event)
    (h : e ∉ body) :
    ∀ (fuel i : Nat) (sc : Bool), (renderLoop body env fuel i sc).count e = 0 := by
  intro fuel
  induction fuel with
  | zero => intro i sc; rfl
  | succ n ih =>
    intro i sc
    cases sc with
    | true => simp [renderLoop]
    | false =>
      simp [renderLoop, List.count_append, ih, List.count_eq_zero.mpr h]

set_option maxHeartbeats 1000000 in
/-- Event counts of the shared shader build-and-link section: each stage
is compiled exactly once, linked exactly once, each stage's shader object
is deleted exactly once, the program is never deleted here, and each
failure diagnostic appears exactly once when and only when the
corresponding status query fails. -/
theorem buildShaderProgram_counts (env : Env) :
    (buildShaderProgram env).count (Event.compileShader Stage.vertex) = 1 ∧
    (buildShaderProgram env).count (Event.compileShader Stage.fragment) = 1 ∧
    (buildShaderProgram env).count Event.linkProgram = 1 ∧
    (buildShaderProgram env).count (Event.deleteShader Stage.vertex) = 1 ∧
    (buildShaderProgram env).count (Event.deleteShader Stage.fragment) = 1 ∧
    (buildShaderProgram env).count Event.deleteProgram = 0 ∧
    (buildShaderProgram env).count (Event.compileDiag Stage.vertex env.vertexLog)
      = (if env.vertexCompileOk then 0 else 1) ∧
    (buildShaderProgram env).count (Event.compileDiag Stage.fragment env.fragmentLog)
      = (if env.fragmentCompileOk then 0 else 1) ∧
    (buildShaderProgram env).count (Event.linkDiag env.linkLog)
      = (if env.linkOk then 0 else 1) ∧
    (buildShaderProgram env).count (Event.drawArrays 0 3) = 0 ∧
    (buildShaderProgram env).count Event.processInputCall = 0 := by
  rcases env with ⟨w, g, vOk, fOk, lOk, vLog, fLog, lLog, esc, ext⟩
  cases vOk <;> cases fOk <;> cases lOk <;>
    simp [buildShaderProgram, List.count_append, List.count_cons, beq_iff_eq]

/-- C1, counterexample.  With escape reported pressed at the very first
input-processing step, the `hello_triangle.cpp` loop still runs the
remainder of that iteration: its trace is one full body, in which the
draw call occurs strictly after the input-processing step that set the
termination flag — so the loop does not exit without issuing a further
draw call after that step. -/
theorem C1_draw_after_escape_counterexample :
    renderLoop HelloTriangle.loopBody envEscAlways 10 0 false =
      [Event.processInputCall, Event.clearColor 2 3 3 10, Event.clear,
       Event.useProgram, Event.bindVertexArray, Event.drawArrays 0 3,
       Event.swapBuffers, Event.pollEvents] ∧
    envEscAlways.escPressed 0 = true ∧
    ((renderLoop HelloTriangle.loopBody envEscAlways 10 0 false).drop 1).count
      (Event.drawArrays 0 3) = 1 := by decide

/-- C1, amended.  If escape is observed pressed at the input-processing
step of iteration `i`, the termination flag becomes true during that step
and the loop emits exactly the current iteration's body and then exits:
one further draw call (the current iteration's) is issued, and no event —
in particular no later-iteration draw call — follows it. -/
theorem C1_escape_terminates_current_iteration (env : Env) (fuel i : Nat)
    (h : env.escPressed i = true) :
    processInput (env.escPressed i) false = true ∧
    renderLoop HelloTriangle.loopBody env (fuel + 1) i false =
      HelloTriangle.loopBody ∧
    HelloTriangle.loopBody.count (Event.drawArrays 0 3) = 1 ∧
    HelloTriangle.loopBody.count Event.processInputCall = 1 := by
  have hpi : processInput (env.escPressed i) false = true := by
    simp [processInput, h]
  exact ⟨hpi, by simp [renderLoop, hpi, renderLoop_closed], by decide, by decide⟩

/-- C1, witness: the amended statement evaluated with escape pressed at
step 0 and fuel for one more iteration. -/
theorem C1_escape_terminates_current_iteration_witness :
    processInput (envEscAlways.escPressed 0) false = true ∧
    renderLoop HelloTriangle.loopBody envEscAlways 1 0 false =
      HelloTriangle.loopBody ∧
    HelloTriangle.loopBody.count (Event.drawArrays 0 3) = 1 ∧
    HelloTriangle.loopBody.count Event.processInputCall = 1 :=
  C1_escape_terminates_current_iteration envEscAlways 0 0 (by decide)

/-- C2.  In `hello_rectangle.cpp` the index array is `(0,1,3,1,2,3)`,
the per-iteration indexed draw call issues exactly 6 indices and is the
only draw call of the iteration, the 4 stored vertices are pairwise
distinct (no duplicate vertex storage), the indices reference exactly 4
unique vertices forming two index-disjoint triangle triples, all indices
are in range, and the draw call's index count does not exceed the element
count uploaded to the bound index buffer. -/
theorem C2_indexed_quad_draw :
    HelloRectangle.indices = [0, 1, 3, 1, 2, 3] ∧
    HelloRectangle.indices.length = 6 ∧
    HelloRectangle.loopBody.count
      (Event.drawElements HelloRectangle.indices.length) = 1 ∧
    (HelloRectangle.loopBody.filter isDrawCall).length = 1 ∧
    HelloRectangle.vertices.length = 4 ∧
    HelloRectangle.vertices.Nodup ∧
    HelloRectangle.indices.dedup.length = 4 ∧
    HelloRectangle.indices.all (· < HelloRectangle.vertices.length) = true ∧
    (HelloRectangle.indices.take 3).Nodup ∧
    (HelloRectangle.indices.drop 3).Nodup ∧
    HelloRectangle.setup.count
      (Event.bufferDataElement HelloRectangle.indices.length) = 1 ∧
    6 ≤ HelloRectangle.indices.length := by decide

/-- C3, counterexample.  Window creation is not the only error kind
treated as fatal: with the window created successfully but the GLAD
loader failing, `hello_triangle.cpp` also terminates with a non-zero
status (before any shader compile or draw call). -/
theorem C3_glad_also_fatal_counterexample :
    envGladFail.windowOk = true ∧
    (HelloTriangle.main envGladFail 5).1 = -1 ∧
    (HelloTriangle.main envGladFail 5).2.count
      (Event.compileShader Stage.vertex) = 0 ∧
    (HelloTriangle.main envGladFail 5).2.countP (fun e => isDrawCall e) = 0 := by
  decide

/-- C3, amended.  If window creation fails, both `hello_window_clear.cpp`
and `hello_triangle.cpp` print the diagnostic, release the windowing
library's resources (`glfwTerminate`), and return `-1` before any shader
compile or draw call; window-creation failure is, however, not the only
fatal error kind, since GLAD-loader failure also exits with `-1`. -/
theorem C3_window_creation_fatal (env : Env) (fuel : Nat)
    (hw : env.windowOk = false) :
    (HelloTriangle.main env fuel).1 = -1 ∧
    Event.printError "Failed to create GLFW window" ∈
      (HelloTriangle.main env fuel).2 ∧
    Event.glfwTerminate ∈ (HelloTriangle.main env fuel).2 ∧
    (HelloTriangle.main env fuel).2.count (Event.compileShader Stage.vertex) = 0 ∧
    (HelloTriangle.main env fuel).2.countP (fun e => isDrawCall e) = 0 ∧
    (HelloWindowClear.main env fuel).1 = -1 ∧
    Event.glfwTerminate ∈ (HelloWindowClear.main env fuel).2 := by
  have h1 : HelloTriangle.main env fuel =
      (-1, [Event.glfwInit, Event.windowHint, Event.windowHint, Event.windowHint,
            Event.createWindow false,
            Event.printError "Failed to create GLFW window", Event.glfwTerminate]) := by
    simp [HelloTriangle.main, contextSetup, hw]
  have h2 : HelloWindowClear.main env fuel =
      (-1, [Event.glfwInit, Event.windowHint, Event.windowHint, Event.windowHint,
            Event.createWindow false,
            Event.printError "Failed to create GLFW window", Event.glfwTerminate]) := by
    simp [HelloWindowClear.main, contextSetup, hw]
  rw [h1, h2]
  refine ⟨rfl, by decide, by decide, by decide, by decide, rfl, by decide⟩

/-- C3, witness: the amended statement evaluated in the environment where
only window creation fails. -/
theorem C3_window_creation_fatal_witness :
    (HelloTriangle.main envWindowFail 2).1 = -1 ∧
    Event.printError "Failed to create GLFW window" ∈
      (HelloTriangle.main envWindowFail 2).2 ∧
    Event.glfwTerminate ∈ (HelloTriangle.main envWindowFail 2).2 ∧
    (HelloTriangle.main envWindowFail 2).2.count
      (Event.compileShader Stage.vertex) = 0 ∧
    (HelloTriangle.main envWindowFail 2).2.countP (fun e => isDrawCall e) = 0 ∧
    (HelloWindowClear.main envWindowFail 2).1 = -1 ∧
    Event.glfwTerminate ∈ (HelloWindowClear.main envWindowFail 2).2 :=
  C3_window_creation_fatal envWindowFail 2 (by decide)

/-- C4.  If vertex or fragment compilation (or the link) fails in
`hello_triangle.cpp`, exactly one diagnostic carrying the failing stage
and its captured log is printed, each stage is compiled only once and the
program linked only once (no retry), the exit code is still `0` (no early
return), and execution proceeds into the render loop (an input-processing
step and a draw call occur). -/
theorem C4_shader_failure_nonfatal (env : Env) (fuel : Nat)
    (hw : env.windowOk = true) (hg : env.gladOk = true) (hf : 1 ≤ fuel) :
    (HelloTriangle.main env fuel).1 = 0 ∧
    Event.processInputCall ∈ (HelloTriangle.main env fuel).2 ∧
    Event.drawArrays 0 3 ∈ (HelloTriangle.main env fuel).2 ∧
    (HelloTriangle.main env fuel).2.count (Event.compileShader Stage.vertex) = 1 ∧
    (HelloTriangle.main env fuel).2.count (Event.compileShader Stage.fragment) = 1 ∧
    (HelloTriangle.main env fuel).2.count Event.linkProgram = 1 ∧
    (env.vertexCompileOk = false →
      (HelloTriangle.main env fuel).2.count
        (Event.compileDiag Stage.vertex env.vertexLog) = 1) ∧
    (env.fragmentCompileOk = false →
      (HelloTriangle.main env fuel).2.count
        (Event.compileDiag Stage.fragment env.fragmentLog) = 1) ∧
    (env.linkOk = false →
      (HelloTriangle.main env fuel).2.count (Event.linkDiag env.linkLog) = 1) := by
  obtain ⟨n, rfl⟩ : ∃ n, fuel = n + 1 := ⟨fuel - 1, by omega⟩
  have hm1 : (HelloTriangle.main env (n + 1)).1 = 0 := by
    simp [HelloTriangle.main, hw, hg]
  have hm2 : (HelloTriangle.main env (n + 1)).2 =
      contextSetup env ++ HelloTriangle.preRender env
        ++ renderLoop HelloTriangle.loopBody env (n + 1) 0 false
        ++ HelloTriangle.shutdown := by
    simp [HelloTriangle.main, hw, hg]
  have hcs : contextSetup env =
      [Event.glfwInit, Event.windowHint, Event.windowHint, Event.windowHint,
       Event.createWindow true] := by simp [contextSetup, hw]
  have hpre : HelloTriangle.preRender env =
      [Event.makeContextCurrent, Event.setFramebufferSizeCallback,
       Event.gladLoad true] ++ buildShaderProgram env ++ HelloTriangle.setup := by
    simp [HelloTriangle.preRender, hg]
  have hloop : renderLoop HelloTriangle.loopBody env (n + 1) 0 false =
      HelloTriangle.loopBody ++ renderLoop HelloTriangle.loopBody env n 1
        (processInput (env.escPressed 0) false || env.externalClose 0) := by
    simp [renderLoop]
  obtain ⟨hb1, hb2, hb3, hb4, hb5, hb6, hb7, hb8, hb9, hb10, hb11⟩ :=
    buildShaderProgram_counts env
  refine ⟨hm1, ?_, ?_, ?_, ?_, ?_, ?_, ?_, ?_⟩
  · have hmem : Event.processInputCall ∈
        renderLoop HelloTriangle.loopBody env (n + 1) 0 false := by
      rw [hloop]; exact List.mem_append_left _ (by decide)
    rw [hm2]; simp [List.mem_append, hmem]
  · have hmem : Event.drawArrays 0 3 ∈
        renderLoop HelloTriangle.loopBody env (n + 1) 0 false := by
      rw [hloop]; exact List.mem_append_left _ (by decide)
    rw [hm2]; simp [List.mem_append, hmem]
  · rw [hm2, List.count_append, List.count_append, List.count_append, hcs, hpre,
        List.count_append, List.count_append,
        renderLoop_count_of_not_mem _ _ _ (by decide), hb1]
    decide
  · rw [hm2, List.count_append, List.count_append, List.count_append, hcs, hpre,
        List.count_append, List.count_append,
        renderLoop_count_of_not_mem _ _ _ (by decide), hb2]
    decide
  · rw [hm2, List.count_append, List.count_append, List.count_append, hcs, hpre,
        List.count_append, List.count_append,
        renderLoop_count_of_not_mem _ _ _ (by decide), hb3]
    decide
  · intro hv
    rw [hm2, List.count_append, List.count_append, List.count_append, hcs, hpre,
        List.count_append, List.count_append,
        renderLoop_count_of_not_mem _ _ _ (by simp [HelloTriangle.loopBody]),
        hb7, hv]
    simp [HelloTriangle.setup, HelloTriangle.shutdown, List.count_cons, beq_iff_eq]
  · intro hv
    rw [hm2, List.count_append, List.count_append, List.count_append, hcs, hpre,
        List.count_append, List.count_append,
        renderLoop_count_of_not_mem _ _ _ (by simp [HelloTriangle.loopBody]),
        hb8, hv]
    simp [HelloTriangle.setup, HelloTriangle.shutdown, List.count_cons, beq_iff_eq]
  · intro hv
    rw [hm2, List.count_append, List.count_append, List.count_append, hcs, hpre,
        List.count_append, List.count_append,
        renderLoop_count_of_not_mem _ _ _ (by simp [HelloTriangle.loopBody]),
        hb9, hv]
    simp [HelloTriangle.setup, HelloTriangle.shutdown, List.count_cons, beq_iff_eq]

/-- C4, witness: the statement evaluated in the environment where both
compilations and the link fail, with fuel for one loop iteration. -/
theorem C4_shader_failure_nonfatal_witness :
    (HelloTriangle.main envBuildFail 1).1 = 0 ∧
    Event.processInputCall ∈ (HelloTriangle.main envBuildFail 1).2 ∧
    Event.drawArrays 0 3 ∈ (HelloTriangle.main envBuildFail 1).2 ∧
    (HelloTriangle.main envBuildFail 1).2.count
      (Event.compileShader Stage.vertex) = 1 ∧
    (HelloTriangle.main envBuildFail 1).2.count
      (Event.compileShader Stage.fragment) = 1 ∧
    (HelloTriangle.main envBuildFail 1).2.count Event.linkProgram = 1 ∧
    (envBuildFail.vertexCompileOk = false →
      (HelloTriangle.main envBuildFail 1).2.count
        (Event.compileDiag Stage.vertex envBuildFail.vertexLog) = 1) ∧
    (envBuildFail.fragmentCompileOk = false →
      (HelloTriangle.main envBuildFail 1).2.count
        (Event.compileDiag Stage.fragment envBuildFail.fragmentLog) = 1) ∧
    (envBuildFail.linkOk = false →
      (HelloTriangle.main envBuildFail 1).2.count
        (Event.linkDiag envBuildFail.linkLog) = 1) :=
  C4_shader_failure_nonfatal envBuildFail 1 (by decide) (by decide) (by decide)

/-- C5, counterexample.  The variant that animates a uniform color from
wall-clock time (`shaders_uniform.cpp`: `glfwGetTime` and `glUniform4f`
every iteration) does not issue an indexed draw of 6 indices: its only
draw call is the non-indexed `glDrawArrays(GL_TRIANGLES, 0, 3)`. -/
theorem C5_uniform_variant_nonindexed_counterexample :
    Event.getTime ∈ ShadersUniform.loopBody ∧
    Event.uniform4f ∈ ShadersUniform.loopBody ∧
    ShadersUniform.loopBody.filter isDrawCall = [Event.drawArrays 0 3] ∧
    ShadersUniform.loopBody.count (Event.drawElements 6) = 0 := by decide

/-- C5, amended.  The uniform-animating variant issues exactly one draw
call per iteration: a non-indexed draw of 3 vertices over its 3-vertex
buffer, with the time sampled and the uniform re-set in the same
iteration; the indexed draw of 6 indices over 4 unique vertices belongs
to the rectangle variant, which animates no uniform and samples no
time. -/
theorem C5_uniform_variant_draw :
    (ShadersUniform.loopBody.filter isDrawCall).length = 1 ∧
    ShadersUniform.loopBody.count (Event.drawArrays 0 3) = 1 ∧
    ShadersUniform.loopBody.count Event.getTime = 1 ∧
    ShadersUniform.loopBody.count Event.uniform4f = 1 ∧
    ShadersUniform.vertices.length = 3 ∧
    HelloRectangle.loopBody.count (Event.drawElements 6) = 1 ∧
    HelloRectangle.loopBody.count Event.uniform4f = 0 ∧
    HelloRectangle.loopBody.count Event.getTime = 0 := by decide

/-- C6, counterexample.  The green value `sin(t)/2 + 0.5` sampled at `t =
0` and one half-period later at `t = π` gives identical values, so no
fixed positive threshold bounds from below the difference of two samples
one half-period apart for every starting time. -/
theorem C6_no_uniform_threshold_counterexample :
    ShadersUniform.greenValue (0 + Real.pi) - ShadersUniform.greenValue 0 = 0 ∧
    ¬ ∃ ε : ℝ, 0 < ε ∧
        ∀ t : ℝ, ε ≤ |ShadersUniform.greenValue (t + Real.pi) -
                      ShadersUniform.greenValue t| := by
  have hzero : ShadersUniform.greenValue (0 + Real.pi) -
      ShadersUniform.greenValue 0 = 0 := by
    simp [ShadersUniform.greenValue, Real.sin_pi]
  refine ⟨hzero, ?_⟩
  rintro ⟨ε, hε, h⟩
  have h0 := h 0
  rw [hzero] at h0
  simp at h0
  linarith

/-- C6, amended.  Two samples of the green value taken one half-period
apart differ by exactly `|sin t|` (which depends on the starting time and
vanishes at multiples of π); for the starting time `t = π/2` the two
samples differ by at least the fixed threshold `1/2`. -/
theorem C6_half_period_difference (t : ℝ) :
    |ShadersUniform.greenValue (t + Real.pi) - ShadersUniform.greenValue t|
      = |Real.sin t| ∧
    (1/2 : ℝ) ≤ |ShadersUniform.greenValue (Real.pi/2 + Real.pi) -
                 ShadersUniform.greenValue (Real.pi/2)| := by
  have key : ∀ s : ℝ, ShadersUniform.greenValue (s + Real.pi) -
      ShadersUniform.greenValue s = -Real.sin s := by
    intro s
    simp [ShadersUniform.greenValue, Real.sin_add, Real.cos_pi, Real.sin_pi]
    ring
  constructor
  · rw [key t, abs_neg]
  · rw [key (Real.pi/2), abs_neg, Real.sin_pi_div_two]
    norm_num

/-- C7, counterexample.  An iteration of the uniform variant's render
loop performs no geometry (vertex-array) bind at all: the claimed step
(3), binding the active program *and geometry*, does not execute every
iteration in that variant. -/
theorem C7_uniform_loop_missing_bind_counterexample :
    renderLoop ShadersUniform.loopBody envAllOk 1 0 false =
      ShadersUniform.loopBody ∧
    Event.bindVertexArray ∉ ShadersUniform.loopBody ∧
    Event.drawArrays 0 3 ∈ ShadersUniform.loopBody ∧
    Event.useProgram ∈ ShadersUniform.loopBody := by decide

/-- C7, amended.  Every iteration runs, in strict order: input
processing, setting the fixed background color and clearing, binding the
active program, exactly one draw call (non-indexed, vertex count 3), then
presenting the frame and polling events.  The triangle variant also binds
its geometry per iteration between program bind and draw; the uniform
variant instead binds its geometry once before the loop (last setup call)
and leaves it bound. -/
theorem C7_iteration_order :
    (HelloTriangle.loopBody.indexOf Event.processInputCall = 0 ∧
     HelloTriangle.loopBody.indexOf Event.processInputCall <
       HelloTriangle.loopBody.indexOf (Event.clearColor 2 3 3 10) ∧
     HelloTriangle.loopBody.indexOf (Event.clearColor 2 3 3 10) <
       HelloTriangle.loopBody.indexOf Event.clear ∧
     HelloTriangle.loopBody.indexOf Event.clear <
       HelloTriangle.loopBody.indexOf Event.useProgram ∧
     HelloTriangle.loopBody.indexOf Event.useProgram <
       HelloTriangle.loopBody.indexOf Event.bindVertexArray ∧
     HelloTriangle.loopBody.indexOf Event.bindVertexArray <
       HelloTriangle.loopBody.indexOf (Event.drawArrays 0 3) ∧
     HelloTriangle.loopBody.indexOf (Event.drawArrays 0 3) <
       HelloTriangle.loopBody.indexOf Event.swapBuffers ∧
     HelloTriangle.loopBody.indexOf Event.swapBuffers <
       HelloTriangle.loopBody.indexOf Event.pollEvents ∧
     (HelloTriangle.loopBody.filter isDrawCall).length = 1) ∧
    (ShadersUniform.loopBody.indexOf Event.processInputCall = 0 ∧
     ShadersUniform.loopBody.indexOf Event.processInputCall <
       ShadersUniform.loopBody.indexOf (Event.clearColor 2 3 3 10) ∧
     ShadersUniform.loopBody.indexOf (Event.clearColor 2 3 3 10) <
       ShadersUniform.loopBody.indexOf Event.clear ∧
     ShadersUniform.loopBody.indexOf Event.clear <
       ShadersUniform.loopBody.indexOf Event.useProgram ∧
     ShadersUniform.loopBody.indexOf Event.useProgram <
       ShadersUniform.loopBody.indexOf (Event.drawArrays 0 3) ∧
     ShadersUniform.loopBody.indexOf (Event.drawArrays 0 3) <
       ShadersUniform.loopBody.indexOf Event.swapBuffers ∧
     ShadersUniform.loopBody.indexOf Event.swapBuffers <
       ShadersUniform.loopBody.indexOf Event.pollEvents ∧
     (ShadersUniform.loopBody.filter isDrawCall).length = 1 ∧
     Event.bindVertexArray ∉ ShadersUniform.loopBody ∧
     ShadersUniform.setup.getLast? = some Event.bindVertexArray) := by decide

/-- C8.  In `hello_triangle.cpp`, after a successful window and GLAD
setup the trace decomposes as pre-render section, loop, shutdown; both
per-stage shader objects are deleted exactly once, in the pre-render
section (hence before the render loop begins), the loop and shutdown
delete no shader object, and the linked program is deleted nowhere before
shutdown and exactly once there. -/
theorem C8_shader_objects_lifecycle (env : Env) (fuel : Nat)
    (hw : env.windowOk = true) (hg : env.gladOk = true) :
    (HelloTriangle.main env fuel).2 =
      contextSetup env ++ HelloTriangle.preRender env
        ++ renderLoop HelloTriangle.loopBody env fuel 0 false
        ++ HelloTriangle.shutdown ∧
    (HelloTriangle.preRender env).count (Event.deleteShader Stage.vertex) = 1 ∧
    (HelloTriangle.preRender env).count (Event.deleteShader Stage.fragment) = 1 ∧
    (HelloTriangle.preRender env).count Event.deleteProgram = 0 ∧
    (contextSetup env).count Event.deleteProgram = 0 ∧
    (renderLoop HelloTriangle.loopBody env fuel 0 false).count
      (Event.deleteShader Stage.vertex) = 0 ∧
    (renderLoop HelloTriangle.loopBody env fuel 0 false).count
      (Event.deleteShader Stage.fragment) = 0 ∧
    (renderLoop HelloTriangle.loopBody env fuel 0 false).count
      Event.deleteProgram = 0 ∧
    HelloTriangle.shutdown.count Event.deleteProgram = 1 ∧
    HelloTriangle.shutdown.count (Event.deleteShader Stage.vertex) = 0 ∧
    HelloTriangle.shutdown.count (Event.deleteShader Stage.fragment) = 0 := by
  obtain ⟨hb1, hb2, hb3, hb4, hb5, hb6, hb7, hb8, hb9, hb10, hb11⟩ :=
    buildShaderProgram_counts env
  refine ⟨by simp [HelloTriangle.main, hw, hg], ?_, ?_, ?_, ?_,
    renderLoop_count_of_not_mem _ _ _ (by decide) _ _ _,
    renderLoop_count_of_not_mem _ _ _ (by decide) _ _ _,
    renderLoop_count_of_not_mem _ _ _ (by decide) _ _ _,
    by decide, by decide, by decide⟩
  · rw [HelloTriangle.preRender, List.count_append, List.count_append, hb4, hg]
    decide
  · rw [HelloTriangle.preRender, List.count_append, List.count_append, hb5, hg]
    decide
  · rw [HelloTriangle.preRender, List.count_append, List.count_append, hb6, hg]
    decide
  · rw [contextSetup]
    simp [List.count_cons, beq_iff_eq]

/-- C8, witness: the statement evaluated in the all-success environment
with fuel for two loop iterations. -/
theorem C8_shader_objects_lifecycle_witness :
    (HelloTriangle.main envAllOk 2).2 =
      contextSetup envAllOk ++ HelloTriangle.preRender envAllOk
        ++ renderLoop HelloTriangle.loopBody envAllOk 2 0 false
        ++ HelloTriangle.shutdown ∧
    (HelloTriangle.preRender envAllOk).count (Event.deleteShader Stage.vertex) = 1 ∧
    (HelloTriangle.preRender envAllOk).count (Event.deleteShader Stage.fragment) = 1 ∧
    (HelloTriangle.preRender envAllOk).count Event.deleteProgram = 0 ∧
    (contextSetup envAllOk).count Event.deleteProgram = 0 ∧
    (renderLoop HelloTriangle.loopBody envAllOk 2 0 false).count
      (Event.deleteShader Stage.vertex) = 0 ∧
    (renderLoop HelloTriangle.loopBody envAllOk 2 0 false).count
      (Event.deleteShader Stage.fragment) = 0 ∧
    (renderLoop HelloTriangle.loopBody envAllOk 2 0 false).count
      Event.deleteProgram = 0 ∧
    HelloTriangle.shutdown.count Event.deleteProgram = 1 ∧
    HelloTriangle.shutdown.count (Event.deleteShader Stage.vertex) = 0 ∧
    HelloTriangle.shutdown.count (Event.deleteShader Stage.fragment) = 0 :=
  C8_shader_objects_lifecycle envAllOk 2 (by decide) (by decide)

/-- C9.  `processInput` sets the should-close flag to true exactly when
escape is reported pressed (otherwise it returns the flag unchanged — the
only window state it touches), it maps a true flag to true for any key
state, and folding it over any sequence of subsequent input-processing
steps keeps a true flag true: termination, once requested, persists. -/
theorem C9_processInput_monotone (esc sc : Bool) (es : List Bool) :
    (processInput esc sc = true ↔ (esc = true ∨ sc = true)) ∧
    processInput false sc = sc ∧
    processInput esc true = true ∧
    runInputs es true = true := by
  refine ⟨?_, rfl, ?_, ?_⟩
  · cases esc <;> cases sc <;> simp [processInput]
  · cases esc <;> rfl
  · induction es with
    | nil => rfl
    | cons e tl ih => cases e <;> simpa [runInputs, processInput] using ih

/-- C10.  If the window was created but the GLAD loader fails, both
`hello_window_clear.cpp` and `hello_triangle.cpp` print the GLAD
diagnostic and return `-1` with no `glfwTerminate` call anywhere in the
trace — unlike window-creation failure, whose trace calls `glfwTerminate`
exactly once before returning `-1`. -/
theorem C10_glad_failure_no_terminate (env : Env) (fuel : Nat)
    (hw : env.windowOk = true) (hg : env.gladOk = false) :
    (HelloTriangle.main env fuel).1 = -1 ∧
    Event.printError "Failed to initialize GLAD" ∈ (HelloTriangle.main env fuel).2 ∧
    (HelloTriangle.main env fuel).2.count Event.glfwTerminate = 0 ∧
    (HelloWindowClear.main env fuel).1 = -1 ∧
    (HelloWindowClear.main env fuel).2.count Event.glfwTerminate = 0 ∧
    (HelloTriangle.main envWindowFail fuel).1 = -1 ∧
    (HelloTriangle.main envWindowFail fuel).2.count Event.glfwTerminate = 1 := by
  have h1 : HelloTriangle.main env fuel =
      (-1, [Event.glfwInit, Event.windowHint, Event.windowHint, Event.windowHint,
            Event.createWindow true,
            Event.makeContextCurrent, Event.setFramebufferSizeCallback,
            Event.gladLoad false,
            Event.printError "Failed to initialize GLAD"]) := by
    simp [HelloTriangle.main, contextSetup, hw, hg]
  have h2 : HelloWindowClear.main env fuel =
      (-1, [Event.glfwInit, Event.windowHint, Event.windowHint, Event.windowHint,
            Event.createWindow true,
            Event.makeContextCurrent, Event.setFramebufferSizeCallback,
            Event.gladLoad false,
            Event.printError "Failed to initialize GLAD"]) := by
    simp [HelloWindowClear.main, contextSetup, hw, hg]
  have h3 : HelloTriangle.main envWindowFail fuel =
      (-1, [Event.glfwInit, Event.windowHint, Event.windowHint, Event.windowHint,
            Event.createWindow false,
            Event.printError "Failed to create GLFW window", Event.glfwTerminate]) := by
    simp [HelloTriangle.main, contextSetup, envWindowFail, envAllOk]
  rw [h1, h2, h3]
  refine ⟨rfl, by decide, by decide, rfl, by decide, rfl, by decide⟩

/-- C10, witness: the statement evaluated in the environment where only
the GLAD loader fails. -/
theorem C10_glad_failure_no_terminate_witness :
    (HelloTriangle.main envGladFail 3).1 = -1 ∧
    Event.printError "Failed to initialize GLAD" ∈
      (HelloTriangle.main envGladFail 3).2 ∧
    (HelloTriangle.main envGladFail 3).2.count Event.glfwTerminate = 0 ∧
    (HelloWindowClear.main envGladFail 3).1 = -1 ∧
    (HelloWindowClear.main envGladFail 3).2.count Event.glfwTerminate = 0 ∧
    (HelloTriangle.main envWindowFail 3).1 = -1 ∧
    (HelloTriangle.main envWindowFail 3).2.count Event.glfwTerminate = 1 :=
  C10_glad_failure_no_terminate envGladFail 3 (by decide) (by decide)
